import Mathlib

/-!
Shallow embedding of `src/light/Light.cpp` (LineageOS light HAL for the
ZUK Z2 Plus device).  The C++ code writes decimal integers and comma-joined
duty-cycle strings to sysfs LED control files; here every hardware write is
recorded as an element of a `Write` trace, machine integers are modelled as
`Nat`/`Int` with explicit truncation where overflow matters, and C integer
division (truncation toward zero) on `int` values is `Int.tdiv`.
-/

namespace LightHAL

/-- The `Flash` mode enum of the V2_0 light HAL (`NONE`, `TIMED`, `HARDWARE`). -/
inductive Flash
  | NONE
  | TIMED
  | HARDWARE
deriving DecidableEq

/-- The `Type` enum of the V2_0 light HAL: the full set of possible roles. -/
inductive LightType
  | BACKLIGHT
  | KEYBOARD
  | BUTTONS
  | BATTERY
  | NOTIFICATIONS
  | ATTENTION
  | BLUETOOTH
  | WIFI
deriving DecidableEq

/-- The `Status` return values of `ILight::setLight` used by this service. -/
inductive Status
  | SUCCESS
  | LIGHT_NOT_SUPPORTED
deriving DecidableEq

/-- The `LightState` record: 32-bit ARGB `color` (a `Nat`; every operation of the code
inspects only bits 0..31, via byte masks, so an arbitrary `Nat` behaves as its
low 32 bits), flash mode and the two `int32_t` timings. -/
structure LightState where
  color : Nat
  flashMode : Flash
  flashOnMs : Int
  flashOffMs : Int
deriving DecidableEq

/-- Constant `static constexpr int RAMP_SIZE = 8;` -/
def RAMP_SIZE : Nat := 8

/-- Constant `static constexpr int RAMP_STEP_DURATION = 50;` -/
def RAMP_STEP_DURATION : Int := 50

/-- Constant `static constexpr int BRIGHTNESS_RAMP[RAMP_SIZE] = {0, 12, 25, 37, 50, 72, 85, 100};` -/
def BRIGHTNESS_RAMP : List Nat := [0, 12, 25, 37, 50, 72, 85, 100]

/-- Constant `static constexpr int MAX_BRIGHTNESS = 255;` -/
def MAX_BRIGHTNESS : Nat := 255

/-- Function `rgbToBrightness`: mask to the low 24 bits, then the luma-weighted sum
`(77*R + 150*G + 29*B) >> 8` (all values fit far below `2^32`, so plain `Nat`
arithmetic coincides with the `uint32_t` arithmetic of the source). -/
def rgbToBrightness (state : LightState) : Nat :=
  let color := state.color &&& 0x00ffffff
  ((77 * ((color >>> 16) &&& 0xff)) + (150 * ((color >>> 8) &&& 0xff)) +
      (29 * (color &&& 0xff))) >>> 8

/-- Function `isLit`: the low 24 bits of the color, converted to `bool`. -/
def isLit (state : LightState) : Bool :=
  (state.color &&& 0x00ffffff) != 0

/-- Function `getScaledDutyPcts`: builds the comma-joined duty string with the same
`buf`/`pad` accumulation as the C++ loop; each value is
`i * brightness / 255` in truncating integer division. -/
def getScaledDutyPcts (brightness : Nat) : String :=
  (BRIGHTNESS_RAMP.foldl
    (fun (acc : String × String) (i : Nat) =>
      (acc.1 ++ acc.2 ++ toString (i * brightness / 255), ","))
    ("", "")).1

/-- The duty-cycle string as the spec sentence words it: eight values
`round(curve[i] * brightness / 255)` — rounding to the nearest integer
(`(2*a + 255) / (2*255)` computes `round(a / 255)`; the denominator 255 is
odd, so exact ties cannot occur), comma-joined in order.  This definition
follows the spec's words, for comparison against `getScaledDutyPcts`, which
follows the source. -/
def getScaledDutyPctsRounded (brightness : Nat) : String :=
  String.intercalate ","
    (BRIGHTNESS_RAMP.map (fun i => toString ((2 * (i * brightness) + 255) / 510)))

/-- The three channels of the shared RGB LED (identities of the sysfs leaf
directories the three `Led` objects were opened on). -/
inductive Channel
  | red
  | green
  | blue
deriving DecidableEq

/-- The per-LED sysfs control attributes opened by the `Led` constructor. -/
inductive LedAttr
  | brightness
  | dutyPcts
  | startIdx
  | pauseLo
  | pauseHi
  | rampStepMs
  | blink
deriving DecidableEq

/-- A value written to a control file: a decimal integer or a duty string. -/
inductive WriteValue
  | num (n : Int)
  | str (s : String)
deriving DecidableEq

/-- One hardware write: to a per-channel LED attribute, to the shared
`rgb_blink` file (`mRgbBlink`), or to the LCD backlight handle. -/
inductive Write
  | led (c : Channel) (a : LedAttr) (v : WriteValue)
  | rgbBlink (v : Int)
  | lcdBacklight (v : Nat)
deriving DecidableEq

/-- A `Led` object: its ramp-table index `mIndex` and the channel whose
control files it owns. -/
structure Led where
  mIndex : Nat
  channel : Channel
deriving DecidableEq

/-- Method `Led::setBrightness(value)`: `mBlink << 0` then `mBrightness << value`. -/
def Led.setBrightness (led : Led) (value : Nat) : List Write :=
  [.led led.channel .blink (.num 0),
   .led led.channel .brightness (.num value)]

/-- Modelled from the spec: `Led::off()` is declared in `Light.h`, which is not
among the sources; the spec describes the none-lit case as turning each channel
"fully off (`setSteady(0)` equivalent — off, not blinking)", i.e. a steady
write of brightness 0. -/
def Led.off (led : Led) : List Write :=
  led.setBrightness 0

/-- Method `Led::setBlink(brightness, onMs, offMs)`: start from the fixed step
duration, `pauseHi = onMs - stepDuration*RAMP_SIZE*2`; if that budget exceeds
`onMs`, recompute `stepDuration = onMs / (RAMP_SIZE*2)` (C `int` division,
truncation toward zero) and force `pauseHi = 0`; then write start index, duty
string, pauses and step duration. -/
def Led.setBlink (led : Led) (brightness : Nat) (onMs offMs : Int) : List Write :=
  let stepDuration : Int := RAMP_STEP_DURATION
  let pauseHi : Int := onMs - (stepDuration * (RAMP_SIZE : Int) * 2)
  let sp : Int × Int :=
    if stepDuration * (RAMP_SIZE : Int) * 2 > onMs then
      (onMs.tdiv ((RAMP_SIZE : Int) * 2), 0)
    else
      (stepDuration, pauseHi)
  [.led led.channel .startIdx (.num (led.mIndex * RAMP_SIZE)),
   .led led.channel .dutyPcts (.str (getScaledDutyPcts brightness)),
   .led led.channel .pauseLo (.num offMs),
   .led led.channel .pauseHi (.num sp.2),
   .led led.channel .rampStepMs (.num sp.1)]

/-- Modelled from the spec: the three `Led` objects are constructed outside
this file (in `service.cpp`, not among the sources) with indices 0, 1, 2; the
spec states a channel is "identified by an `index` (0,1,2 — used to compute
the ramp table offset for a shared hardware ramp bank)". -/
def mRedLed : Led := ⟨0, .red⟩

/-- Modelled from the spec: green channel, index 1 (see `mRedLed`). -/
def mGreenLed : Led := ⟨1, .green⟩

/-- Modelled from the spec: blue channel, index 2 (see `mRedLed`). -/
def mBlueLed : Led := ⟨2, .blue⟩

/-- The controller state: the LCD maximum brightness (`mLcdBacklight.second`)
and the three stored role states guarded by `mLock`.  No state is stored for
`BACKLIGHT`. -/
structure Light where
  lcdMaxBrightness : Nat
  mNotificationState : LightState
  mAttentionState : LightState
  mBatteryState : LightState
deriving DecidableEq

/-- The RGB scaling of `Light::setSpeakerLightLocked`: extract
`alpha = (color >> 24) & 0xff`, `red/green/blue` = bytes 2/1/0, and if
`alpha != 0xff` scale each channel to `channel * alpha / 0xff` (truncating). -/
def scaleColor (color : Nat) : Nat × Nat × Nat :=
  let alpha := (color >>> 24) &&& 0xff
  let red := (color >>> 16) &&& 0xff
  let green := (color >>> 8) &&& 0xff
  let blue := color &&& 0xff
  if alpha != 0xff then
    ((red * alpha) / 0xff, (green * alpha) / 0xff, (blue * alpha) / 0xff)
  else
    (red, green, blue)

/-- Method `Light::setSpeakerLightLocked(state)`: scale the color, write 0 to
`mRgbBlink`, then either blink all three channels and write 1 to `mRgbBlink`
(`Flash::TIMED`), or set all three channels steady (`Flash::NONE` and the
`default` label). -/
def setSpeakerLightLocked (state : LightState) : List Write :=
  let rgb := scaleColor state.color
  [Write.rgbBlink 0] ++
  (match state.flashMode with
   | .TIMED =>
       mRedLed.setBlink rgb.1 state.flashOnMs state.flashOffMs ++
       mGreenLed.setBlink rgb.2.1 state.flashOnMs state.flashOffMs ++
       mBlueLed.setBlink rgb.2.2 state.flashOnMs state.flashOffMs ++
       [Write.rgbBlink 1]
   | _ =>
       mRedLed.setBrightness rgb.1 ++
       mGreenLed.setBrightness rgb.2.1 ++
       mBlueLed.setBrightness rgb.2.2)

/-- Method `Light::setSpeakerBatteryLightLocked()`: fixed-priority arbitration
NOTIFICATIONS, then ATTENTION, then BATTERY; if none is lit, switch all three
channels off. -/
def setSpeakerBatteryLightLocked (l : Light) : List Write :=
  if isLit l.mNotificationState then
    setSpeakerLightLocked l.mNotificationState
  else if isLit l.mAttentionState then
    setSpeakerLightLocked l.mAttentionState
  else if isLit l.mBatteryState then
    setSpeakerLightLocked l.mBatteryState
  else
    mRedLed.off ++ mGreenLed.off ++ mBlueLed.off

/-- Method `Light::setAttentionLight`: store the state, re-evaluate the shared LED. -/
def setAttentionLight (l : Light) (state : LightState) : Light × List Write :=
  let l2 : Light := { l with mAttentionState := state }
  (l2, setSpeakerBatteryLightLocked l2)

/-- Method `Light::setBatteryLight`: store the state, re-evaluate the shared LED. -/
def setBatteryLight (l : Light) (state : LightState) : Light × List Write :=
  let l2 : Light := { l with mBatteryState := state }
  (l2, setSpeakerBatteryLightLocked l2)

/-- Method `Light::setNotificationLight`: store the state, re-evaluate the LED. -/
def setNotificationLight (l : Light) (state : LightState) : Light × List Write :=
  let l2 : Light := { l with mNotificationState := state }
  (l2, setSpeakerBatteryLightLocked l2)

/-- Method `Light::setLcdBacklight(state)`: luma brightness from the color; when
`mLcdBacklight.second != MAX_BRIGHTNESS`, rescale with the `uint32_t`
computation `brightness * mLcdBacklight.second / MAX_BRIGHTNESS` (the product
is `uint32_t`, hence the explicit `% 2^32`); write the result to the
backlight handle.  The controller state is unchanged. -/
def setLcdBacklight (l : Light) (state : LightState) : Light × List Write :=
  let brightness := rgbToBrightness state
  let brightness :=
    if l.lcdMaxBrightness != MAX_BRIGHTNESS then
      (brightness * l.lcdMaxBrightness) % 2 ^ 32 / MAX_BRIGHTNESS
    else
      brightness
  (l, [Write.lcdBacklight brightness])

/-- The all-off light state (color 0, no flash): the initial value of each
stored role state. -/
def offState : LightState :=
  ⟨0, .NONE, 0, 0⟩

/-- The set of roles registered in the `Light` constructor (`mLights` keys). -/
def supportedTypes : List LightType :=
  [.ATTENTION, .BACKLIGHT, .BATTERY, .NOTIFICATIONS]

/-- Method `Light::setLight(type, state)`: dispatch through the `mLights` map —
`LIGHT_NOT_SUPPORTED` with no effect for an unregistered role, otherwise run
the bound handler and return `SUCCESS`. -/
def setLight (l : Light) (t : LightType) (state : LightState) :
    Status × Light × List Write :=
  match t with
  | .ATTENTION => ((.SUCCESS : Status), setAttentionLight l state)
  | .BACKLIGHT => ((.SUCCESS : Status), setLcdBacklight l state)
  | .BATTERY => ((.SUCCESS : Status), setBatteryLight l state)
  | .NOTIFICATIONS => ((.SUCCESS : Status), setNotificationLight l state)
  | _ => ((.LIGHT_NOT_SUPPORTED : Status), l, ([] : List Write))

end LightHAL

namespace LightHAL

/-- Bit-mask arithmetic: `n &&& 0xff` is `n % 256`. -/
theorem and_ff_eq_mod (n : Nat) : n &&& 0xff = n % 256 := by
  have h : (0xff : Nat) = 2 ^ 8 - 1 := by norm_num
  rw [h, Nat.and_pow_two_sub_one_eq_mod]

/-- Bit-mask arithmetic: `n &&& 0x00ffffff` is `n % 2 ^ 24`. -/
theorem and_ffffff_eq_mod (n : Nat) : n &&& 0x00ffffff = n % 2 ^ 24 := by
  have h : (0x00ffffff : Nat) = 2 ^ 24 - 1 := by norm_num
  rw [h, Nat.and_pow_two_sub_one_eq_mod]

/-- The luma-weighted brightness never exceeds 255 (so the `uint32_t`
rescaling product in `setLcdBacklight` is bounded by `255 * maxBrightness`). -/
theorem rgbToBrightness_le (state : LightState) : rgbToBrightness state ≤ 255 := by
  have h1 : ((state.color &&& 0x00ffffff) / 2 ^ 16) &&& 0xff ≤ 0xff := Nat.and_le_right
  have h2 : ((state.color &&& 0x00ffffff) / 2 ^ 8) &&& 0xff ≤ 0xff := Nat.and_le_right
  have h3 : (state.color &&& 0x00ffffff) &&& 0xff ≤ 0xff := Nat.and_le_right
  simp only [rgbToBrightness, Nat.shiftRight_eq_div_pow] at h1 h2 h3 ⊢
  omega

/-- C2: for every brightness, `onMs` and `offMs`, `setBlink` on the channel
with index `i` writes `startIndex = i * 8` and `pauseLow = offMs`; if
`onMs ≥ 2 * 8 * 50 = 800` it writes `stepDuration = 50` and
`pauseHigh = onMs - 800`, otherwise `stepDuration = onMs / 16` (truncating
integer division) and `pauseHigh = 0`.  In particular `onMs = 400` yields
`stepDuration = 25`, `pauseHigh = 0`, and `onMs = 1000` yields
`stepDuration = 50`, `pauseHigh = 200`. -/
theorem C2_setBlink_encoding (led : Led) (brightness : Nat) (onMs offMs : Int) :
    led.setBlink brightness onMs offMs =
      [.led led.channel .startIdx (.num (led.mIndex * 8)),
       .led led.channel .dutyPcts (.str (getScaledDutyPcts brightness)),
       .led led.channel .pauseLo (.num offMs),
       .led led.channel .pauseHi (.num (if 800 ≤ onMs then onMs - 800 else 0)),
       .led led.channel .rampStepMs (.num (if 800 ≤ onMs then 50 else onMs.tdiv 16))] ∧
    led.setBlink brightness 400 offMs =
      [.led led.channel .startIdx (.num (led.mIndex * 8)),
       .led led.channel .dutyPcts (.str (getScaledDutyPcts brightness)),
       .led led.channel .pauseLo (.num offMs),
       .led led.channel .pauseHi (.num 0),
       .led led.channel .rampStepMs (.num 25)] ∧
    led.setBlink brightness 1000 offMs =
      [.led led.channel .startIdx (.num (led.mIndex * 8)),
       .led led.channel .dutyPcts (.str (getScaledDutyPcts brightness)),
       .led led.channel .pauseLo (.num offMs),
       .led led.channel .pauseHi (.num 200),
       .led led.channel .rampStepMs (.num 50)] := by
  refine ⟨?_, ?_, ?_⟩
  · by_cases h : (800 : Int) ≤ onMs
    · have h3 : ¬ (onMs < 800) := not_lt.mpr h
      simp [Led.setBlink, RAMP_STEP_DURATION, RAMP_SIZE, h, h3]
    · have h3 : onMs < 800 := not_le.mp h
      simp [Led.setBlink, RAMP_STEP_DURATION, RAMP_SIZE, h, h3]
  · simp [Led.setBlink, RAMP_STEP_DURATION, RAMP_SIZE]
    decide
  · simp [Led.setBlink, RAMP_STEP_DURATION, RAMP_SIZE]

/-- C9: `setBlink` with `onMs = 0` takes the short-on-time branch and writes
`stepDuration = 0` and `pauseHigh = 0` (`0 tdiv 16 = 0`, no division by zero
is possible: every divisor in the scaling and ramp arithmetic —
`RAMP_SIZE * 2`, `MAX_BRIGHTNESS` and `0xff` — is a nonzero constant). -/
theorem C9_no_div_by_zero (led : Led) (brightness : Nat) (offMs : Int) :
    led.setBlink brightness 0 offMs =
      [.led led.channel .startIdx (.num (led.mIndex * 8)),
       .led led.channel .dutyPcts (.str (getScaledDutyPcts brightness)),
       .led led.channel .pauseLo (.num offMs),
       .led led.channel .pauseHi (.num 0),
       .led led.channel .rampStepMs (.num 0)] ∧
    RAMP_SIZE * 2 ≠ 0 ∧ MAX_BRIGHTNESS ≠ 0 ∧ (0xff : Nat) ≠ 0 := by
  refine ⟨?_, by decide, by decide, by decide⟩
  simp [Led.setBlink, RAMP_STEP_DURATION, RAMP_SIZE]

end LightHAL

namespace LightHAL

/-- C3: for every 32-bit ARGB color applied to the shared RGB LED, alpha is
byte 3 and red/green/blue are bytes 2/1/0; if alpha ≠ 0xff each channel is
scaled to `channel * alpha / 255` with truncation, and if alpha = 0xff the
channels are used unscaled.  In particular 0x80FF0000 yields (128, 0, 0) and
0xFFFF0000 yields red = 255. -/
theorem C3_alpha_scaling (color : Nat) :
    scaleColor color =
      (if (color >>> 24) % 256 = 255 then
        ((color >>> 16) % 256, (color >>> 8) % 256, color % 256)
      else
        ((color >>> 16) % 256 * ((color >>> 24) % 256) / 255,
         (color >>> 8) % 256 * ((color >>> 24) % 256) / 255,
         color % 256 * ((color >>> 24) % 256) / 255)) ∧
    scaleColor 0x80FF0000 = (128, 0, 0) ∧
    (scaleColor 0xFFFF0000).1 = 255 := by
  refine ⟨?_, by decide, by decide⟩
  by_cases h : (color >>> 24) % 256 = 255
  · simp [scaleColor, and_ff_eq_mod, h]
  · simp [scaleColor, and_ff_eq_mod, h]

/-- C4: the backlight brightness is `(77*R + 150*G + 29*B) >> 8` (truncating);
when the device maximum differs from 255 it is rescaled to
`brightness * maxBrightness / 255` (truncating), and when it equals 255 no
rescaling happens.  Overflow cannot occur while `255 * maxBrightness < 2^32`,
since the derived brightness is at most 255.  Concretely: 0x00FFFFFF gives
255 pre-scaling, 0 gives 0, and maxBrightness 128 with brightness 255 gives
128.  The controller state is unchanged. -/
theorem C4_backlight_brightness (state : LightState) (l : Light)
    (h : 255 * l.lcdMaxBrightness < 2 ^ 32) :
    rgbToBrightness state =
      (77 * ((state.color >>> 16) % 256) + 150 * ((state.color >>> 8) % 256) +
        29 * (state.color % 256)) / 256 ∧
    (setLcdBacklight l state).2 =
      [Write.lcdBacklight
        (if l.lcdMaxBrightness = 255 then rgbToBrightness state
         else rgbToBrightness state * l.lcdMaxBrightness / 255)] ∧
    (setLcdBacklight l state).1 = l ∧
    rgbToBrightness ⟨0x00FFFFFF, .NONE, 0, 0⟩ = 255 ∧
    rgbToBrightness ⟨0, .NONE, 0, 0⟩ = 0 ∧
    (setLcdBacklight ⟨128, offState, offState, offState⟩
        ⟨0x00FFFFFF, .NONE, 0, 0⟩).2 = [Write.lcdBacklight 128] := by
  refine ⟨?_, ?_, rfl, by decide, by decide, by decide⟩
  · simp only [rgbToBrightness, Nat.shiftRight_eq_div_pow, and_ffffff_eq_mod,
      and_ff_eq_mod]
    norm_num
    omega
  · have hb : rgbToBrightness state ≤ 255 := rgbToBrightness_le state
    by_cases hm : l.lcdMaxBrightness = 255
    · simp [setLcdBacklight, MAX_BRIGHTNESS, hm]
    · have hle : rgbToBrightness state * l.lcdMaxBrightness ≤ 255 * l.lcdMaxBrightness :=
        mul_le_mul_right' hb l.lcdMaxBrightness
      have hlt : rgbToBrightness state * l.lcdMaxBrightness < 2 ^ 32 :=
        lt_of_le_of_lt hle h
      simp [setLcdBacklight, MAX_BRIGHTNESS, hm]
      omega

/-- C4 witness: the backlight theorem applied at device maximum 128 and a
white color (derived brightness 255, written value 128). -/
theorem C4_backlight_brightness_witness :
    (setLcdBacklight ⟨128, offState, offState, offState⟩
        ⟨0x00FFFFFF, .NONE, 0, 0⟩).2 =
      [Write.lcdBacklight
        (if (128 : Nat) = 255 then rgbToBrightness ⟨0x00FFFFFF, .NONE, 0, 0⟩
         else rgbToBrightness ⟨0x00FFFFFF, .NONE, 0, 0⟩ * 128 / 255)] :=
  (C4_backlight_brightness ⟨0x00FFFFFF, .NONE, 0, 0⟩
      ⟨128, offState, offState, offState⟩ (by decide)).2.1

/-- C5 counterexample: at brightness 200 the code writes the truncated duty
string "0,9,19,29,39,56,66,78", not the rounded values
"0,9,20,29,39,56,67,78" that the claim specifies (25*200/255 = 19.6... and
85*200/255 = 66.6... round up but are truncated by the code). -/
theorem C5_counterexample :
    getScaledDutyPcts 200 ≠ getScaledDutyPctsRounded 200 ∧
    getScaledDutyPcts 200 = "0,9,19,29,39,56,66,78" ∧
    getScaledDutyPctsRounded 200 = "0,9,20,29,39,56,67,78" :=
  ⟨by decide, by decide, by decide⟩

/-- C5 (amended): for every brightness in 0..255 the duty-cycle string written
by `setBlink` is the eight values `curve[i] * brightness / 255` in truncating
integer division over the fixed curve {0,12,25,37,50,72,85,100}, joined by
commas in order; for brightness 255 it equals exactly
"0,12,25,37,50,72,85,100" and for brightness 0 it is all zeros. -/
theorem C5_duty_string (brightness : Nat) (h : brightness ≤ 255) :
    getScaledDutyPcts brightness =
      toString (0 * brightness / 255) ++ "," ++ toString (12 * brightness / 255) ++ "," ++
      toString (25 * brightness / 255) ++ "," ++ toString (37 * brightness / 255) ++ "," ++
      toString (50 * brightness / 255) ++ "," ++ toString (72 * brightness / 255) ++ "," ++
      toString (85 * brightness / 255) ++ "," ++ toString (100 * brightness / 255) ∧
    getScaledDutyPcts 255 = "0,12,25,37,50,72,85,100" ∧
    getScaledDutyPcts 0 = "0,0,0,0,0,0,0,0" := by
  refine ⟨?_, by decide, by decide⟩
  simp [getScaledDutyPcts, BRIGHTNESS_RAMP, String.append_assoc]

/-- C5 witness: the amended duty-string theorem applied at brightness 255. -/
theorem C5_duty_string_witness :
    getScaledDutyPcts 255 = "0,12,25,37,50,72,85,100" :=
  (C5_duty_string 255 (by decide)).2.1

end LightHAL

namespace LightHAL

/-- C1: a stored role state is lit iff the lower 24 bits of its color are
nonzero, and re-evaluating the shared LED applies the NOTIFICATIONS state if
lit, else the ATTENTION state if lit, else the BATTERY state if lit, and
otherwise writes a steady brightness 0 (blink disabled, never the blink-start
trigger) to all three RGB channels. -/
theorem C1_priority_arbitration (notif attn batt : LightState) (lcdMax : Nat) :
    (∀ s : LightState, isLit s = true ↔ s.color % 2 ^ 24 ≠ 0) ∧
    (isLit notif = true →
      setSpeakerBatteryLightLocked ⟨lcdMax, notif, attn, batt⟩ =
        setSpeakerLightLocked notif) ∧
    (isLit notif = false → isLit attn = true →
      setSpeakerBatteryLightLocked ⟨lcdMax, notif, attn, batt⟩ =
        setSpeakerLightLocked attn) ∧
    (isLit notif = false → isLit attn = false → isLit batt = true →
      setSpeakerBatteryLightLocked ⟨lcdMax, notif, attn, batt⟩ =
        setSpeakerLightLocked batt) ∧
    (isLit notif = false → isLit attn = false → isLit batt = false →
      setSpeakerBatteryLightLocked ⟨lcdMax, notif, attn, batt⟩ =
        [.led .red .blink (.num 0), .led .red .brightness (.num 0),
         .led .green .blink (.num 0), .led .green .brightness (.num 0),
         .led .blue .blink (.num 0), .led .blue .brightness (.num 0)]) := by
  refine ⟨?_, ?_, ?_, ?_, ?_⟩
  · intro s
    simp [isLit, and_ffffff_eq_mod]
  · intro hn
    simp [setSpeakerBatteryLightLocked, hn]
  · intro hn ha
    simp [setSpeakerBatteryLightLocked, hn, ha]
  · intro hn ha hb
    simp [setSpeakerBatteryLightLocked, hn, ha, hb]
  · intro hn ha hb
    simp [setSpeakerBatteryLightLocked, hn, ha, hb, Led.off, Led.setBrightness,
      mRedLed, mGreenLed, mBlueLed]

/-- C1 witness: with a lit red NOTIFICATIONS state over lit ATTENTION and
BATTERY states the arbitration picks NOTIFICATIONS; with all three stored
states dark it writes steady brightness 0 to all three channels. -/
theorem C1_priority_arbitration_witness :
    (setSpeakerBatteryLightLocked
        ⟨255, ⟨0x00FF0000, .NONE, 0, 0⟩, ⟨0x0000FF00, .NONE, 0, 0⟩,
          ⟨0x000000FF, .NONE, 0, 0⟩⟩ =
      setSpeakerLightLocked ⟨0x00FF0000, .NONE, 0, 0⟩) ∧
    (setSpeakerBatteryLightLocked ⟨255, offState, offState, offState⟩ =
      [.led .red .blink (.num 0), .led .red .brightness (.num 0),
       .led .green .blink (.num 0), .led .green .brightness (.num 0),
       .led .blue .blink (.num 0), .led .blue .brightness (.num 0)]) :=
  ⟨(C1_priority_arbitration ⟨0x00FF0000, .NONE, 0, 0⟩ ⟨0x0000FF00, .NONE, 0, 0⟩
      ⟨0x000000FF, .NONE, 0, 0⟩ 255).2.1 (by decide),
   (C1_priority_arbitration offState offState offState 255).2.2.2.2
      (by decide) (by decide) (by decide)⟩

/-- C6: `setLight` with a role outside {ATTENTION, BACKLIGHT, BATTERY,
NOTIFICATIONS} returns LIGHT_NOT_SUPPORTED, performs no hardware write and
leaves the stored role states unchanged; with a role in the set it returns
SUCCESS. -/
theorem C6_unsupported_role (t : LightType) (state : LightState) (l : Light) :
    (t ∉ supportedTypes →
      setLight l t state = (Status.LIGHT_NOT_SUPPORTED, l, ([] : List Write))) ∧
    (t ∈ supportedTypes → (setLight l t state).1 = Status.SUCCESS) := by
  constructor <;> intro h <;> cases t <;>
    simp_all [supportedTypes, setLight, setAttentionLight, setLcdBacklight,
      setBatteryLight, setNotificationLight]

/-- C6 witness: WIFI is rejected with no write and unchanged state; BATTERY
succeeds. -/
theorem C6_unsupported_role_witness :
    (setLight ⟨255, offState, offState, offState⟩ .WIFI offState =
      (Status.LIGHT_NOT_SUPPORTED, ⟨255, offState, offState, offState⟩,
        ([] : List Write))) ∧
    (setLight ⟨255, offState, offState, offState⟩ .BATTERY offState).1 =
      Status.SUCCESS :=
  ⟨(C6_unsupported_role .WIFI offState ⟨255, offState, offState, offState⟩).1
      (by decide),
   (C6_unsupported_role .BATTERY offState ⟨255, offState, offState, offState⟩).2
      (by decide)⟩

/-- Every write performed by `Led::setBlink` goes to a per-channel LED
attribute, never to the shared `rgb_blink` file. -/
theorem setBlink_no_rgbBlink (led : Led) (b : Nat) (onMs offMs : Int) :
    ∀ w ∈ led.setBlink b onMs offMs, ∀ v : Int, w ≠ Write.rgbBlink v := by
  simp [Led.setBlink]

/-- Every write performed by `Led::setBrightness` goes to a per-channel LED
attribute, never to the shared `rgb_blink` file. -/
theorem setBrightness_no_rgbBlink (led : Led) (b : Nat) :
    ∀ w ∈ led.setBrightness b, ∀ v : Int, w ≠ Write.rgbBlink v := by
  simp [Led.setBrightness]

/-- C7: applying an effective state writes 0 to the global blink-start file
before anything else; with TIMED flash mode it then loads the ramp tables of
all three channels (none of those writes touches the blink-start file) and
only then writes 1 to blink-start; with any other flash mode it sets the
three channels steady and never writes 1 to blink-start. -/
theorem C7_blink_trigger_order (state : LightState) :
    (setSpeakerLightLocked state).head? = some (Write.rgbBlink 0) ∧
    (state.flashMode = .TIMED →
      setSpeakerLightLocked state =
        [Write.rgbBlink 0] ++
        (mRedLed.setBlink (scaleColor state.color).1 state.flashOnMs state.flashOffMs ++
         mGreenLed.setBlink (scaleColor state.color).2.1 state.flashOnMs state.flashOffMs ++
         mBlueLed.setBlink (scaleColor state.color).2.2 state.flashOnMs state.flashOffMs) ++
        [Write.rgbBlink 1] ∧
      ∀ w ∈ mRedLed.setBlink (scaleColor state.color).1 state.flashOnMs state.flashOffMs ++
            mGreenLed.setBlink (scaleColor state.color).2.1 state.flashOnMs state.flashOffMs ++
            mBlueLed.setBlink (scaleColor state.color).2.2 state.flashOnMs state.flashOffMs,
        ∀ v : Int, w ≠ Write.rgbBlink v) ∧
    (state.flashMode ≠ .TIMED →
      setSpeakerLightLocked state =
        [Write.rgbBlink 0] ++
        (mRedLed.setBrightness (scaleColor state.color).1 ++
         mGreenLed.setBrightness (scaleColor state.color).2.1 ++
         mBlueLed.setBrightness (scaleColor state.color).2.2) ∧
      ∀ w ∈ mRedLed.setBrightness (scaleColor state.color).1 ++
            mGreenLed.setBrightness (scaleColor state.color).2.1 ++
            mBlueLed.setBrightness (scaleColor state.color).2.2,
        ∀ v : Int, w ≠ Write.rgbBlink v) := by
  refine ⟨?_, ?_, ?_⟩
  · cases hm : state.flashMode <;> simp [setSpeakerLightLocked, hm]
  · intro hm
    refine ⟨by simp [setSpeakerLightLocked, hm], ?_⟩
    intro w hw v
    rcases List.mem_append.mp hw with hw2 | hw2
    · rcases List.mem_append.mp hw2 with hw3 | hw3
      · exact setBlink_no_rgbBlink _ _ _ _ w hw3 v
      · exact setBlink_no_rgbBlink _ _ _ _ w hw3 v
    · exact setBlink_no_rgbBlink _ _ _ _ w hw2 v
  · intro hm
    have hww : setSpeakerLightLocked state =
        [Write.rgbBlink 0] ++
        (mRedLed.setBrightness (scaleColor state.color).1 ++
         mGreenLed.setBrightness (scaleColor state.color).2.1 ++
         mBlueLed.setBrightness (scaleColor state.color).2.2) := by
      cases hm2 : state.flashMode <;> simp_all [setSpeakerLightLocked]
    refine ⟨hww, ?_⟩
    intro w hw v
    rcases List.mem_append.mp hw with hw2 | hw2
    · rcases List.mem_append.mp hw2 with hw3 | hw3
      · exact setBrightness_no_rgbBlink _ _ w hw3 v
      · exact setBrightness_no_rgbBlink _ _ w hw3 v
    · exact setBrightness_no_rgbBlink _ _ w hw2 v

/-- C7 witness: a TIMED red notification produces blink-start 0 first, the
three ramp loads, then blink-start 1. -/
theorem C7_blink_trigger_order_witness :
    setSpeakerLightLocked ⟨0x00FF0000, .TIMED, 1000, 500⟩ =
      [Write.rgbBlink 0] ++
      (mRedLed.setBlink (scaleColor 0x00FF0000).1 1000 500 ++
       mGreenLed.setBlink (scaleColor 0x00FF0000).2.1 1000 500 ++
       mBlueLed.setBlink (scaleColor 0x00FF0000).2.2 1000 500) ++
      [Write.rgbBlink 1] :=
  ((C7_blink_trigger_order ⟨0x00FF0000, .TIMED, 1000, 500⟩).2.1 rfl).1

/-- C8: `setLight(BACKLIGHT, state)` succeeds, leaves the stored role states
(and hence the whole controller state) unchanged, and its only hardware write
is a single write to the backlight handle — no RGB channel attribute and no
blink-start write. -/
theorem C8_backlight_independent (l : Light) (state : LightState) :
    (setLight l .BACKLIGHT state).1 = Status.SUCCESS ∧
    (setLight l .BACKLIGHT state).2.1 = l ∧
    ∃ v : Nat, (setLight l .BACKLIGHT state).2.2 = [Write.lcdBacklight v] :=
  ⟨rfl, rfl, ⟨_, rfl⟩⟩

/-- C10: a state whose alpha byte is 0 but whose lower 24 RGB bits are
nonzero counts as lit, wins the arbitration as NOTIFICATIONS over any
ATTENTION or BATTERY state (lit or not), yet its scaled RGB triple is
(0, 0, 0); with flash mode NONE the three channels are driven steady at
brightness 0, visually masking any lower-priority lit state. -/
theorem C10_dark_lit_state_masks (notif attn batt : LightState) (lcdMax : Nat)
    (halpha : (notif.color >>> 24) &&& 0xff = 0)
    (hrgb : notif.color &&& 0x00ffffff ≠ 0) :
    isLit notif = true ∧
    setSpeakerBatteryLightLocked ⟨lcdMax, notif, attn, batt⟩ =
      setSpeakerLightLocked notif ∧
    scaleColor notif.color = (0, 0, 0) ∧
    (notif.flashMode = .NONE →
      setSpeakerLightLocked notif =
        [Write.rgbBlink 0,
         .led .red .blink (.num 0), .led .red .brightness (.num 0),
         .led .green .blink (.num 0), .led .green .brightness (.num 0),
         .led .blue .blink (.num 0), .led .blue .brightness (.num 0)]) := by
  have hlit : isLit notif = true := by
    simp [isLit, hrgb]
  have hscale : scaleColor notif.color = (0, 0, 0) := by
    simp [scaleColor, halpha]
  refine ⟨hlit, ?_, hscale, ?_⟩
  · simp [setSpeakerBatteryLightLocked, hlit]
  · intro hm
    simp [setSpeakerLightLocked, hm, hscale, Led.setBrightness,
      mRedLed, mGreenLed, mBlueLed]

/-- C10 witness: an alpha-0 red NOTIFICATIONS state over a lit solid-blue
BATTERY state drives all three channels at 0. -/
theorem C10_dark_lit_state_masks_witness :
    setSpeakerLightLocked ⟨0x00FF0000, .NONE, 0, 0⟩ =
      [Write.rgbBlink 0,
       .led .red .blink (.num 0), .led .red .brightness (.num 0),
       .led .green .blink (.num 0), .led .green .brightness (.num 0),
       .led .blue .blink (.num 0), .led .blue .brightness (.num 0)] :=
  (C10_dark_lit_state_masks ⟨0x00FF0000, .NONE, 0, 0⟩ offState
      ⟨0xFF0000FF, .NONE, 0, 0⟩ 255 (by decide) (by decide)).2.2.2 rfl

end LightHAL
